import Mathlib

/-!
Shallow embedding of the WebAgent benchmark-session subsystem.

Sources embedded:
- `src/lib/utils.ts` (`normalizeUrl`, `validateUrl`);
- `supabase-schema.sql` (tables `benchmark_sessions` / `benchmarks`, their CHECK
  constraints, and the `update_benchmark_session_stats` trigger);
- `src/lib/database.ts` (`DatabaseService` operations);
- `src/app/api/benchmark/route.ts` (`MODELS_TO_RUN`, the session-creation `POST`);
- `src/app/api/benchmark/[sessionId]/route.ts` (`GET`);
- `src/app/api/benchmark/session/update/route.ts` (`POST`).

JavaScript strings are embedded as Lean `String`; the store's uuid/timestamp
generation is made explicit by threading an id counter and a `now : Nat`
parameter; fallible store operations return `Option` (`none` = the operation
raised / the SQL statement was rejected).
-/

namespace WebAgent

/-- Embedding of JavaScript `String.prototype.startsWith`: a prefix test on
the character sequence. -/
def jsStartsWith (s p : String) : Bool :=
  p.data.isPrefixOf s.data

/-- From `src/lib/utils.ts`:
`normalizeUrl` prepends `https://` when the input starts with neither
`http://` nor `https://`, and returns the input unchanged otherwise. -/
def normalizeUrl (url : String) : String :=
  if !(jsStartsWith url "http://") && !(jsStartsWith url "https://") then
    "https://" ++ url
  else
    url

/-- Characters allowed after the first character of a URL scheme
(ASCII alphanumeric, `+`, `-`, `.`), per the URL standard's scheme grammar. -/
def isSchemeChar (c : Char) : Bool :=
  c.isAlphanum || c == '+' || c == '-' || c == '.'

/-- Forbidden host code points of the URL standard (the subset relevant
here: controls, space, and the listed delimiters). A host containing one of
these fails to parse. -/
def forbiddenHostChar (c : Char) : Bool :=
  c.toNat < 0x21 || c == '#' || c == '/' || c == '<' || c == '>' ||
  c == '?' || c == '@' || c == '[' || c == '\\' || c == ']' ||
  c == '^' || c == '|' || c == '%'

/-- Modelled from the spec: the host JavaScript runtime's WHATWG `URL`
constructor, which `validateUrl` calls and which is not part of this
repository. The model covers the fragment `validateUrl` observes: whether
parsing succeeds, and the resulting `protocol`. A string parses when it has
a scheme `name:` (first character alphabetic, the rest scheme characters,
lowercased in the result); for the special schemes `http`/`https` the scheme
must be followed by `//` and an authority `host[:port]` with a nonempty host
free of forbidden host code points and an all-digit port. Non-special
schemes are accepted with an arbitrary remainder. (Credentials, IPv6
literals, and the standard's tab/newline stripping are outside the model's
scope; no claim exercises them.) Returns the `protocol` (scheme plus `:`)
on success. -/
def urlProtocol (u : String) : Option String :=
  let cs := u.data
  match cs with
  | [] => none
  | c0 :: _ =>
    if !c0.isAlpha then none
    else
      let scheme := cs.takeWhile isSchemeChar
      let rest := cs.drop scheme.length
      match rest with
      | ':' :: afterColon =>
        let schemeLc := (scheme.map Char.toLower).asString
        if schemeLc == "http" || schemeLc == "https" then
          match afterColon with
          | '/' :: '/' :: auth =>
            let chunk := auth.takeWhile (fun c => !(c == '/' || c == '?' || c == '#'))
            let host := chunk.takeWhile (fun c => !(c == ':'))
            let port := chunk.drop (host.length + 1)
            if host.isEmpty then none
            else if host.any forbiddenHostChar then none
            else if host.length < chunk.length && !(port.all Char.isDigit) then none
            else some (schemeLc ++ ":")
          | _ => none
        else
          some (schemeLc ++ ":")
      | _ => none

/-- From `src/lib/utils.ts`:
`validateUrl` parses the string with the `URL` constructor and returns
whether the protocol is `http:` or `https:`; a parse failure yields
`false`. -/
def validateUrl (url : String) : Bool :=
  match urlProtocol url with
  | some p => p == "http:" || p == "https:"
  | none => false

example : normalizeUrl "example.com" = "https://example.com" := by decide
example : validateUrl "https://example.com" = true := by decide
example : validateUrl (normalizeUrl "not a url") = false := by decide
example : validateUrl "example.com" = false := by decide
example : validateUrl "http://example.com:8080/x" = true := by decide

/-! ## Data model (`supabase-schema.sql`, `src/lib/database.ts`) -/

/-- Column `benchmarks.status`: `CHECK (status IN
('pending','running','completed','failed','cancelled'))`. -/
inductive BenchmarkStatus
  | pending | running | completed | failed | cancelled
  deriving DecidableEq, Repr

/-- Column `benchmark_sessions.status`: `CHECK (status IN
('running','completed','failed','cancelled'))`. -/
inductive SessionStatus
  | running | completed | failed | cancelled
  deriving DecidableEq, Repr

/-- One row of `benchmark_sessions`. Counter columns are SQL `INTEGER`,
embedded as `Int`; timestamps are abstract instants (`Nat`). -/
structure Session where
  id : String
  session_id : String
  user_id : String
  website_url : String
  task_description : String
  status : SessionStatus
  total_models : Int
  completed_models : Int
  successful_models : Int
  start_time : Option Nat
  end_time : Option Nat
  updated_at : Nat
  deriving DecidableEq, Repr

/-- One row of `benchmarks` (the per-model benchmark records). -/
structure Benchmark where
  id : String
  session_id : String
  session_identifier : String
  user_id : String
  website_url : String
  task_description : String
  model_id : String
  model_name : String
  status : BenchmarkStatus
  success : Bool
  execution_time_ms : Int
  start_time : Option Nat
  end_time : Option Nat
  error_message : Option String
  llm_provider : String
  updated_at : Nat
  deriving DecidableEq, Repr

/-- The persistence gateway's state: the two tables plus the store's id
supply (`gen_random_uuid()` made explicit as a counter). -/
structure DB where
  sessions : List Session
  benchmarks : List Benchmark
  nextId : Nat
  deriving DecidableEq, Repr

def emptyDB : DB := { sessions := [], benchmarks := [], nextId := 0 }

/-- The store-assigned opaque id for the `n`-th created row. -/
def freshUuid (n : Nat) : String := "uuid-" ++ Nat.repr n

/-- The CHECK constraints of `benchmark_sessions`:
`char_length(website_url) >= 10`, `char_length(task_description) >= 5`,
`completed_models >= 0 AND completed_models <= total_models`,
`successful_models >= 0 AND successful_models <= completed_models`.
A row violating one of these is rejected by the store. -/
def sessionCheck (s : Session) : Bool :=
  decide (10 ≤ s.website_url.length) &&
  decide (5 ≤ s.task_description.length) &&
  decide (0 ≤ s.completed_models) &&
  decide (s.completed_models ≤ s.total_models) &&
  decide (0 ≤ s.successful_models) &&
  decide (s.successful_models ≤ s.completed_models)

/-- The CHECK/UNIQUE constraints of `benchmarks` relative to the rest of the
table: `UNIQUE (session_id, model_id)` and `execution_time_ms >= 0`. -/
def benchmarkCheck (b : Benchmark) (others : List Benchmark) : Bool :=
  decide (0 ≤ b.execution_time_ms) &&
  others.all (fun o => !(o.session_id == b.session_id && o.model_id == b.model_id))

/-! ## Aggregation rule: trigger `update_benchmark_session_stats` -/

/-- Embeds `COUNT(*) FROM benchmarks WHERE session_id = sid AND status IN
('completed','failed')`. -/
def countResolved (benchmarks : List Benchmark) (sid : String) : Nat :=
  (benchmarks.filter (fun b =>
    b.session_id == sid &&
    (b.status == BenchmarkStatus.completed || b.status == BenchmarkStatus.failed))).length

/-- Embeds `COUNT(*) FROM benchmarks WHERE session_id = sid AND status =
'completed' AND success = true`. -/
def countSuccessful (benchmarks : List Benchmark) (sid : String) : Nat :=
  (benchmarks.filter (fun b =>
    b.session_id == sid &&
    (b.status == BenchmarkStatus.completed && b.success))).length

/-- The row update performed by the trigger function
`update_benchmark_session_stats` on the owning session: recompute
`completed_models` and `successful_models` from the record table, bump
`updated_at`, set `status` to `completed` when the resolved count equals
`total_models` and to `running` otherwise, and set `end_time` to now in the
former case, leaving it unchanged in the latter. -/
def recomputeSession (s : Session) (benchmarks : List Benchmark) (now : Nat) : Session :=
  { s with
    completed_models := (countResolved benchmarks s.id : Int)
    successful_models := (countSuccessful benchmarks s.id : Int)
    updated_at := now
    status :=
      if (countResolved benchmarks s.id : Int) = s.total_models then
        SessionStatus.completed
      else
        SessionStatus.running
    end_time :=
      if (countResolved benchmarks s.id : Int) = s.total_models then
        some now
      else
        s.end_time }

/-- Trigger firing `AFTER INSERT OR UPDATE OR DELETE ON benchmarks`:
`update_session_stats_trigger`: update the session row whose `id` is the
affected record's `session_id` via `recomputeSession`. The surrounding
statement is rejected (`none`) when the updated row would violate the
session table's CHECK constraints; an update matching no session row
succeeds without effect. -/
def applyStatsTrigger (db : DB) (sid : String) (now : Nat) : Option DB :=
  let updated := db.sessions.map (fun s =>
    if s.id == sid then recomputeSession s db.benchmarks now else s)
  if updated.all (fun s => !(s.id == sid) || sessionCheck s) then
    some { db with sessions := updated }
  else
    none

/-! ## Store operations (`src/lib/database.ts`, `DatabaseService`) -/

/-- Embeds `DatabaseService.createBenchmarkSession`: insert a `benchmark_sessions`
row (the store assigns the id) and return the assigned id. The insert is
rejected when the row violates the table's CHECK constraints or the
uniqueness of the primary key / the `session_id` column. -/
def createBenchmarkSession (db : DB) (row : Session) : Option (String × DB) :=
  let s := { row with id := freshUuid db.nextId }
  if sessionCheck s &&
      db.sessions.all (fun o => !(o.id == s.id) && !(o.session_id == s.session_id)) then
    some (s.id, { db with sessions := db.sessions ++ [s], nextId := db.nextId + 1 })
  else
    none

/-- Embeds `DatabaseService.createBenchmark`: insert a `benchmarks` row (the store
assigns the id) and return the assigned id. The insert is rejected on a
CHECK/UNIQUE violation; on success the `AFTER INSERT` trigger fires for the
owning session, and a trigger-side constraint violation aborts the whole
statement. -/
def createBenchmark (db : DB) (row : Benchmark) (now : Nat) : Option (String × DB) :=
  let b := { row with id := freshUuid db.nextId }
  if benchmarkCheck b db.benchmarks && db.benchmarks.all (fun o => !(o.id == b.id)) then
    (applyStatsTrigger
        { db with benchmarks := db.benchmarks ++ [b], nextId := db.nextId + 1 }
        b.session_id now).map (fun db' => (b.id, db'))
  else
    none

/-- The optional fields of `DatabaseService.updateBenchmarkStatus`'s
`updates` argument (`none` = the key is absent / `undefined` and the column
keeps its value). The structured log/steps/result payload columns are
omitted: no claim mentions them and they carry no constraint. -/
structure BenchmarkUpdates where
  success : Option Bool
  execution_time_ms : Option Int
  error_message : Option String
  deriving DecidableEq, Repr

def noBenchmarkUpdates : BenchmarkUpdates :=
  { success := none, execution_time_ms := none, error_message := none }

/-- The column assignment of `updateBenchmarkStatus`: set `status` and
`updated_at`, merge the provided optional fields, and set `end_time` to now
when the new status is `completed` or `failed`. -/
def applyBenchmarkUpdates (b : Benchmark) (st : BenchmarkStatus)
    (u : BenchmarkUpdates) (now : Nat) : Benchmark :=
  let b' := { b with
    status := st
    updated_at := now
    success := u.success.getD b.success
    execution_time_ms := u.execution_time_ms.getD b.execution_time_ms
    error_message := (u.error_message.map some).getD b.error_message }
  if st == BenchmarkStatus.completed || st == BenchmarkStatus.failed then
    { b' with end_time := some now }
  else
    b'

/-- Embeds `DatabaseService.updateBenchmarkStatus`: `UPDATE benchmarks ... WHERE id
= benchmarkId`. An update matching no row succeeds without effect and fires
no trigger; otherwise the matched row is updated (subject to the
`execution_time_ms >= 0` CHECK) and the `AFTER UPDATE` trigger fires for
its session. -/
def updateBenchmarkStatusOp (db : DB) (benchmarkId : String)
    (st : BenchmarkStatus) (u : BenchmarkUpdates) (now : Nat) : Option DB :=
  match db.benchmarks.find? (fun b => b.id == benchmarkId) with
  | none => some db
  | some old =>
    let newBenchmarks := db.benchmarks.map (fun b =>
      if b.id == benchmarkId then applyBenchmarkUpdates b st u now else b)
    if newBenchmarks.all (fun b => !(b.id == benchmarkId) || decide (0 ≤ b.execution_time_ms)) then
      applyStatsTrigger { db with benchmarks := newBenchmarks } old.session_id now
    else
      none

/-- Embeds `DELETE FROM benchmarks WHERE id = benchmarkId` (reachable through the
session cascade delete): the `AFTER DELETE` trigger fires for the deleted
row's session (`COALESCE(NEW.session_id, OLD.session_id)` = the old
session id), counting over the remaining rows. -/
def deleteBenchmarkOp (db : DB) (benchmarkId : String) (now : Nat) : Option DB :=
  match db.benchmarks.find? (fun b => b.id == benchmarkId) with
  | none => some db
  | some old =>
    applyStatsTrigger
      { db with benchmarks := db.benchmarks.filter (fun b => !(b.id == benchmarkId)) }
      old.session_id now

/-- The optional counter fields of `DatabaseService.updateSessionStatus`'s
`updates` argument. -/
structure SessionUpdates where
  completed_models : Option Int
  successful_models : Option Int
  deriving DecidableEq, Repr

/-- The column assignment of `updateSessionStatus`: set `status` and
`updated_at`, merge the provided counters, and set `end_time` to now when
the new status is `completed` or `failed`. -/
def applySessionUpdates (s : Session) (st : SessionStatus)
    (u : SessionUpdates) (now : Nat) : Session :=
  let s' := { s with
    status := st
    updated_at := now
    completed_models := u.completed_models.getD s.completed_models
    successful_models := u.successful_models.getD s.successful_models }
  if st == SessionStatus.completed || st == SessionStatus.failed then
    { s' with end_time := some now }
  else
    s'

/-- Embeds `DatabaseService.updateSessionStatus`: `UPDATE benchmark_sessions ...
WHERE id = sessionId`, rejected when an updated row violates the table's
CHECK constraints. -/
def updateSessionStatusOp (db : DB) (sessionId : String)
    (st : SessionStatus) (u : SessionUpdates) (now : Nat) : Option DB :=
  let newSessions := db.sessions.map (fun s =>
    if s.id == sessionId then applySessionUpdates s st u now else s)
  if newSessions.all (fun s => !(s.id == sessionId) || sessionCheck s) then
    some { db with sessions := newSessions }
  else
    none

/-! ## Session-creation route (`src/app/api/benchmark/route.ts`, `POST`) -/

/-- One entry of the configured model list. -/
structure ModelSpec where
  id : String
  name : String
  provider : String
  deriving DecidableEq, Repr

/-- The static `MODELS_TO_RUN` list of `src/app/api/benchmark/route.ts`. -/
def MODELS_TO_RUN : List ModelSpec :=
  [ { id := "gpt-4o", name := "GPT-4o", provider := "openai" },
    { id := "gpt-4o-mini", name := "GPT-4o Mini", provider := "openai" },
    { id := "gpt-4-turbo", name := "GPT-4 Turbo", provider := "openai" },
    { id := "gpt-3.5-turbo", name := "GPT-3.5 Turbo", provider := "openai" },
    { id := "claude-3-5-sonnet-20241022", name := "Claude 3.5 Sonnet", provider := "anthropic" },
    { id := "claude-3-haiku-20240307", name := "Claude 3 Haiku", provider := "anthropic" },
    { id := "claude-3-opus-20240229", name := "Claude 3 Opus", provider := "anthropic" },
    { id := "claude-3-5-haiku-20241022", name := "Claude 3.5 Haiku", provider := "anthropic" } ]

/-- The request body of the session-creation `POST` (a JS string that is
absent or empty is falsy and fails the route's required-field check, so
both are embedded as the empty string). -/
structure CreateRequest where
  websiteUrl : String
  taskDescription : String
  userId : String
  deriving DecidableEq, Repr

/-- The distinct responses of the session-creation `POST`. -/
inductive PostOutcome
  /-- HTTP 400, `Missing required fields: websiteUrl, taskDescription, userId`. -/
  | missingFields
  /-- HTTP 400, `Invalid website URL`. -/
  | invalidUrl
  /-- HTTP 500, `Internal server error` — a store operation raised and the raised
  value is not a JS `Error` mentioning `fetch`. -/
  | dbError
  /-- HTTP 500, `Internal server error` — the Execution Backend's start call
  returned a non-success status and the route threw
  `Python API call failed` (a message not containing `fetch`). -/
  | backendFailed
  /-- HTTP 200, the success payload carrying the external session id. -/
  | ok (session_id : String)
  deriving DecidableEq, Repr

/-- The HTTP status code the route answers with for each outcome. -/
def httpStatus : PostOutcome → Nat
  | PostOutcome.missingFields => 400
  | PostOutcome.invalidUrl => 400
  | PostOutcome.dbError => 500
  | PostOutcome.backendFailed => 500
  | PostOutcome.ok _ => 200

/-- Whether the outcome is one of the route's own validation rejections
(the 400-class responses issued before any store access). -/
def isValidationRejection : PostOutcome → Bool
  | PostOutcome.missingFields => true
  | PostOutcome.invalidUrl => true
  | _ => false

/-- Embeds the route's generated external identifier
(`session_` + `Date.now()` + `_` + random base-36 suffix)
with the clock and the random suffix made explicit. -/
def mkExternalId (now nonce : Nat) : String :=
  "session_" ++ Nat.repr now ++ "_" ++ Nat.repr nonce

/-- The `benchmark_sessions` insert values of the route (step 3): status
`running`, `total_models = MODELS_TO_RUN.length`, both counters 0. The
store overwrites the placeholder `id`. -/
def sessionRowFor (sid : String) (req : CreateRequest) (nurl : String) (now : Nat) : Session :=
  { id := ""
    session_id := sid
    user_id := req.userId
    website_url := nurl
    task_description := req.taskDescription
    status := SessionStatus.running
    total_models := (MODELS_TO_RUN.length : Int)
    completed_models := 0
    successful_models := 0
    start_time := some now
    end_time := none
    updated_at := now }

/-- The `benchmarks` insert values of the route (step 4) for one configured
model: status `pending`, `success = false`, `execution_time_ms = 0`, the
denormalized external identifier and the model's provider tag. The store
overwrites the placeholder `id`. -/
def benchmarkRowFor (uuid sid : String) (req : CreateRequest) (nurl : String)
    (m : ModelSpec) (now : Nat) : Benchmark :=
  { id := ""
    session_id := uuid
    session_identifier := sid
    user_id := req.userId
    website_url := nurl
    task_description := req.taskDescription
    model_id := m.id
    model_name := m.name
    status := BenchmarkStatus.pending
    success := false
    execution_time_ms := 0
    start_time := some now
    end_time := none
    error_message := none
    llm_provider := m.provider
    updated_at := now }

/-- The route's `Promise.all(MODELS_TO_RUN.map(model =>
db.createBenchmark(...)))`, sequentialized in list order: on a rejected
insert the flag is `false` and the state keeps the inserts applied so
far. -/
def insertModels (db : DB) (uuid sid : String) (req : CreateRequest) (nurl : String)
    (now : Nat) : List ModelSpec → Bool × DB
  | [] => (true, db)
  | m :: ms =>
    match createBenchmark db (benchmarkRowFor uuid sid req nurl m now) now with
    | none => (false, db)
    | some (_, db') => insertModels db' uuid sid req nurl now ms

/-- The session-creation `POST` of `src/app/api/benchmark/route.ts`, with
the clock (`now`), the random suffix (`nonce`) and the Execution Backend's
response disposition (`backendOk` = `pythonResponse.ok`) made explicit.
Returns the response and the resulting store state. On backend failure the
route calls `db.updateBenchmarkStatus(sessionUuid, 'failed', ...)` — an
update of the `benchmarks` table keyed by the session's uuid — and then
throws. -/
def createSessionFlow (db : DB) (req : CreateRequest) (now nonce : Nat)
    (backendOk : Bool) : PostOutcome × DB :=
  if req.websiteUrl.isEmpty || req.taskDescription.isEmpty || req.userId.isEmpty then
    (PostOutcome.missingFields, db)
  else
    let normalizedUrl := normalizeUrl req.websiteUrl
    if !(validateUrl normalizedUrl) then
      (PostOutcome.invalidUrl, db)
    else
      let sessionId := mkExternalId now nonce
      match createBenchmarkSession db (sessionRowFor sessionId req normalizedUrl now) with
      | none => (PostOutcome.dbError, db)
      | some (sessionUuid, db1) =>
        match insertModels db1 sessionUuid sessionId req normalizedUrl now MODELS_TO_RUN with
        | (false, dbp) => (PostOutcome.dbError, dbp)
        | (true, db2) =>
          if backendOk then
            (PostOutcome.ok sessionId, db2)
          else
            match updateBenchmarkStatusOp db2 sessionUuid BenchmarkStatus.failed
                { noBenchmarkUpdates with
                    error_message := some "Failed to start benchmark execution" } now with
            | some db3 => (PostOutcome.backendFailed, db3)
            | none => (PostOutcome.dbError, db2)

/-! ## Get-session route (`src/app/api/benchmark/[sessionId]/route.ts`,
`GET`, backed by `DatabaseService.getSessionSummary`) -/

/-- The public record fields `getSessionSummary` projects for each
benchmark of the session. -/
structure SummaryModelResult where
  model_id : String
  model_name : String
  status : BenchmarkStatus
  success : Bool
  execution_time_ms : Int
  error_message : Option String
  benchmark_id : String
  start_time : Option Nat
  end_time : Option Nat
  deriving DecidableEq, Repr

def toModelResult (b : Benchmark) : SummaryModelResult :=
  { model_id := b.model_id
    model_name := b.model_name
    status := b.status
    success := b.success
    execution_time_ms := b.execution_time_ms
    error_message := b.error_message
    benchmark_id := b.id
    start_time := b.start_time
    end_time := b.end_time }

/-- The session summary `getSessionSummary` assembles: the session's
attributes, the projected record list, and `execution_time_ms` = the sum of
the records' durations. -/
structure SessionSummary where
  id : String
  session_id : String
  user_id : String
  website_url : String
  task_description : String
  status : SessionStatus
  total_models : Int
  completed_models : Int
  successful_models : Int
  execution_time_ms : Int
  model_results : List SummaryModelResult
  updated_at : Nat
  deriving DecidableEq, Repr

/-- Embeds `DatabaseService.getSessionSummary sessionId`: select the
`benchmark_sessions` row with `id = sessionId` (`null` when none matches),
select the `benchmarks` rows with `session_id = sessionId`, and assemble
the summary. -/
def getSessionSummary (db : DB) (sessionId : String) : Option SessionSummary :=
  match db.sessions.find? (fun s => s.id == sessionId) with
  | none => none
  | some session =>
    let modelResults := (db.benchmarks.filter
      (fun b => b.session_id == sessionId)).map toModelResult
    some { id := session.id
           session_id := session.session_id
           user_id := session.user_id
           website_url := session.website_url
           task_description := session.task_description
           status := session.status
           total_models := session.total_models
           completed_models := session.completed_models
           successful_models := session.successful_models
           execution_time_ms := (modelResults.map (fun r => r.execution_time_ms)).sum
           model_results := modelResults
           updated_at := session.updated_at }

/-- The responses of the get-session `GET`. -/
inductive GetOutcome
  /-- HTTP 404, `Session not found`. -/
  | notFound
  /-- HTTP 200 with the summary payload. -/
  | found (data : SessionSummary)
  deriving DecidableEq, Repr

/-- The `GET` of `src/app/api/benchmark/[sessionId]/route.ts`: answer the
summary for the path parameter, or 404 when `getSessionSummary` yields
nothing. -/
def getSessionRoute (db : DB) (sessionId : String) : GetOutcome :=
  match getSessionSummary db sessionId with
  | none => GetOutcome.notFound
  | some summary => GetOutcome.found summary

/-! ## Session-status update route
(`src/app/api/benchmark/session/update/route.ts`, `POST`) -/

/-- The responses of the session-status update `POST`. -/
inductive UpdateSessionOutcome
  /-- HTTP 400, `Missing required fields: session_identifier, status`. -/
  | missingFieldsU
  /-- HTTP 404, `Session not found`. -/
  | notFoundU
  /-- HTTP 500, `Internal server error`. -/
  | serverErrorU
  /-- HTTP 200, the success acknowledgement. -/
  | okU
  deriving DecidableEq, Repr

/-- The `POST` of `src/app/api/benchmark/session/update/route.ts`: resolve
the external identifier through the denormalized `session_identifier`
column of `benchmarks`, then write the caller-supplied status and counters
with `updateSessionStatus`. -/
def sessionUpdateRoute (db : DB) (sessionIdentifier : String) (st : SessionStatus)
    (u : SessionUpdates) (now : Nat) : UpdateSessionOutcome × DB :=
  if sessionIdentifier.isEmpty then
    (UpdateSessionOutcome.missingFieldsU, db)
  else
    match db.benchmarks.filter (fun b => b.session_identifier == sessionIdentifier) with
    | [] => (UpdateSessionOutcome.notFoundU, db)
    | b :: _ =>
      match updateSessionStatusOp db b.session_id st u now with
      | some db' => (UpdateSessionOutcome.okU, db')
      | none => (UpdateSessionOutcome.serverErrorU, db)

/-! ## Shared concrete scenario values -/

/-- A well-formed creation request (the spec's running example). -/
def reqExample : CreateRequest :=
  { websiteUrl := "example.com"
    taskDescription := "Find contact page"
    userId := "user-1" }

/-- The state after a successful creation from the empty store with
`reqExample` at instant 5, nonce 7. -/
def dbAfterCreate : DB := (createSessionFlow emptyDB reqExample 5 7 true).2

/-- A one-model session row used to exercise the aggregation trigger at the
store level. -/
def oneModelSession : Session :=
  { id := ""
    session_id := "sess-ext"
    user_id := "user-1"
    website_url := "https://example.com"
    task_description := "Find contact page"
    status := SessionStatus.running
    total_models := 1
    completed_models := 0
    successful_models := 0
    start_time := some 0
    end_time := none
    updated_at := 0 }

/-- The single pending record of `oneModelSession` (owning session id is
the store-assigned `uuid-0`). -/
def oneModelRecord : Benchmark :=
  { id := ""
    session_id := "uuid-0"
    session_identifier := "sess-ext"
    user_id := "user-1"
    website_url := "https://example.com"
    task_description := "Find contact page"
    model_id := "gpt-4o"
    model_name := "GPT-4o"
    status := BenchmarkStatus.pending
    success := false
    execution_time_ms := 0
    start_time := some 0
    end_time := none
    error_message := none
    llm_provider := "openai"
    updated_at := 0 }

/-- Store state after: insert `oneModelSession`, insert `oneModelRecord`
(as `uuid-1`), and mark the record completed with success — the session's
single model has resolved. -/
def dbOneResolved : Option DB :=
  (createBenchmarkSession emptyDB oneModelSession).bind (fun p =>
    (createBenchmark p.2 oneModelRecord 1).bind (fun q =>
      updateBenchmarkStatusOp q.2 q.1 BenchmarkStatus.completed
        { success := some true, execution_time_ms := some 1200, error_message := none } 2))

/-- Store state after additionally deleting the resolved record. -/
def dbRecordDeleted : Option DB :=
  dbOneResolved.bind (fun db => deleteBenchmarkOp db "uuid-1" 3)

/-! ## Claim theorems -/

/-- C2: after every benchmark-record status change (the trigger fires on
insert, update and delete), the aggregation rule sets the owning session's
`completed_models` to the count of that session's records with status
`completed` or `failed`, sets `successful_models` to the count of its
records with status `completed` and `success = true`, and sets the
session's status to `completed` exactly when `completed_models` equals
`total_models`. -/
theorem C2_aggregation_rule (s : Session) (benchmarks : List Benchmark) (now : Nat) :
    (recomputeSession s benchmarks now).completed_models =
      (countResolved benchmarks s.id : Int) ∧
    (recomputeSession s benchmarks now).successful_models =
      (countSuccessful benchmarks s.id : Int) ∧
    ((recomputeSession s benchmarks now).status = SessionStatus.completed ↔
      (countResolved benchmarks s.id : Int) = s.total_models) := by
  refine ⟨rfl, rfl, ?_⟩
  unfold recomputeSession
  dsimp only
  constructor
  · intro h
    by_contra hne
    rw [if_neg hne] at h
    exact SessionStatus.noConfusion h
  · intro h
    rw [if_pos h]

/-- C3 counterexample: a record-operation sequence under which a session
whose status has become `completed` transitions back to `running`, and a
recompute with `completed_models` unequal to `total_models` does not leave
the status unchanged. After the one configured record of a
`total_models = 1` session is marked completed the session is `completed`;
deleting that record fires the trigger again, which resets the status to
`running` (the trigger's `ELSE 'running'` branch), rather than leaving the
terminal status in place. -/
theorem C3_counterexample :
    (dbOneResolved.map (fun db => db.sessions.map Session.status) =
      some [SessionStatus.completed]) ∧
    (dbRecordDeleted.map (fun db => db.sessions.map Session.status) =
      some [SessionStatus.running]) ∧
    (dbRecordDeleted.map (fun db =>
      db.sessions.map (fun s => (s.completed_models, s.total_models))) =
      some [(0, 1)]) := by decide

/-- C3 amended: on every recompute the aggregation rule sets the session's
status to `completed` when the resolved-record count equals `total_models`
and to `running` otherwise — it does not leave the status unchanged in the
unequal case, so a completed session regresses to `running` when a record
delete or reversion makes `completed_models` differ from `total_models`;
only as long as every recompute still sees `completed_models =
total_models` does `completed` persist. -/
theorem C3_amended_status_formula (s : Session) (benchmarks : List Benchmark) (now : Nat) :
    (recomputeSession s benchmarks now).status =
      (if (countResolved benchmarks s.id : Int) = s.total_models then
        SessionStatus.completed
      else
        SessionStatus.running) := rfl

/-- A character list is a prefix of itself followed by anything. -/
theorem isPrefixOf_self_append (l t : List Char) : l.isPrefixOf (l ++ t) = true := by
  induction l with
  | nil => simp [List.isPrefixOf]
  | cons c cs ih => simp [List.isPrefixOf, ih]

/-- C10: normalizeUrl is idempotent — applying it twice equals applying it
once, for every input string. -/
theorem C10_normalizeUrl_idempotent (u : String) :
    normalizeUrl (normalizeUrl u) = normalizeUrl u := by
  unfold normalizeUrl jsStartsWith
  by_cases h7 : List.isPrefixOf "http://".data u.data
  · simp [h7]
  · by_cases h8 : List.isPrefixOf "https://".data u.data
    · simp [h7, h8]
    · simp only [h7, h8, Bool.not_false, Bool.and_self, if_pos]
      have hpre : List.isPrefixOf "https://".data ("https://" ++ u).data = true := by
        rw [String.data_append]
        exact isPrefixOf_self_append _ _
      simp [hpre]

/-- C8: `normalizeUrl` prepends `https://` exactly when the input starts
with neither `http://` nor `https://`; `example.com` normalizes to
`https://example.com`, which `validateUrl` accepts;
`validateUrl (normalizeUrl "not a url")` is `false`; and `validateUrl`
returns `true` exactly for strings the URL parser accepts with protocol
`http:` or `https:`. -/
theorem C8_url_normalization_and_validation :
    (∀ u : String,
        ((jsStartsWith u "http://" || jsStartsWith u "https://") = false →
          normalizeUrl u = "https://" ++ u) ∧
        ((jsStartsWith u "http://" || jsStartsWith u "https://") = true →
          normalizeUrl u = u)) ∧
    normalizeUrl "example.com" = "https://example.com" ∧
    validateUrl (normalizeUrl "example.com") = true ∧
    validateUrl (normalizeUrl "not a url") = false ∧
    (∀ u : String, validateUrl u = true ↔
        ∃ p, urlProtocol u = some p ∧ (p = "http:" ∨ p = "https:")) := by
  refine ⟨?_, by decide, by decide, by decide, ?_⟩
  · intro u
    constructor
    · intro h
      have h2 := Bool.or_eq_false_iff.mp h
      simp [normalizeUrl, h2.1, h2.2]
    · intro h
      rcases Bool.or_eq_true_iff.mp h with h1 | h1 <;> simp [normalizeUrl, h1]
  · intro u
    unfold validateUrl
    cases h : urlProtocol u with
    | none => simp
    | some p =>
      constructor
      · intro hb
        rcases Bool.or_eq_true_iff.mp hb with h1 | h1
        · exact ⟨p, rfl, Or.inl (by simpa using h1)⟩
        · exact ⟨p, rfl, Or.inr (by simpa using h1)⟩
      · rintro ⟨q, hq, hor⟩
        cases hq
        rcases hor with h1 | h1 <;> simp [h1]

/-- Witness for C8 at the concrete input `example.com`. -/
theorem C8_witness :
    ((jsStartsWith "example.com" "http://" || jsStartsWith "example.com" "https://") = false) ∧
    normalizeUrl "example.com" = "https://" ++ "example.com" :=
  ⟨by decide, (C8_url_normalization_and_validation.1 "example.com").1 (by decide)⟩

/-- C1 evidence: a valid creation request from the empty store whose
Execution Backend start call returns a non-success status. The route
answers with an error (HTTP 500, error propagated) and the eight
pre-created records remain `pending` — but the session's status remains
`running`, not `failed`: the route's failure handler calls
`db.updateBenchmarkStatus(sessionUuid, 'failed', ...)`, an update of the
`benchmarks` table keyed by a benchmarks-row id, with the session row's
uuid; no benchmark row carries that id, so the update matches nothing and
the session row is never touched, contradicting the route's own comment
`If Python backend fails, mark session as failed`. -/
theorem C1_backend_failure_session_not_marked_failed :
    (createSessionFlow emptyDB reqExample 5 7 false).1 = PostOutcome.backendFailed ∧
    httpStatus (createSessionFlow emptyDB reqExample 5 7 false).1 = 500 ∧
    ((createSessionFlow emptyDB reqExample 5 7 false).2.sessions.map Session.status) =
      [SessionStatus.running] ∧
    ((createSessionFlow emptyDB reqExample 5 7 false).2.benchmarks.map Benchmark.status) =
      List.replicate 8 BenchmarkStatus.pending := by decide

/-- A creation request whose task description has fewer than 5 characters
(but is nonempty, so it passes the route's required-field check). -/
def reqShortTask : CreateRequest := { reqExample with taskDescription := "abcd" }

/-- A creation request whose task description has exactly 5 characters. -/
def reqFiveCharTask : CreateRequest := { reqExample with taskDescription := "abcde" }

/-- Whether the `POST` outcome is the success response. -/
def isSuccessOutcome : PostOutcome → Bool
  | PostOutcome.ok _ => true
  | _ => false

/-- C6 counterexample: a 4-character task description is not rejected with
a validation error — the route performs no task-length validation, the
rejection comes from the store's `task_description_length` CHECK constraint
on the session insert, and the route surfaces it as HTTP 500
`Internal server error` (not one of its 400 validation responses). Nothing
is persisted. -/
theorem C6_counterexample :
    reqShortTask.taskDescription.length = 4 ∧
    (createSessionFlow emptyDB reqShortTask 5 7 true).1 = PostOutcome.dbError ∧
    isValidationRejection (createSessionFlow emptyDB reqShortTask 5 7 true).1 = false ∧
    httpStatus (createSessionFlow emptyDB reqShortTask 5 7 true).1 = 500 ∧
    (createSessionFlow emptyDB reqShortTask 5 7 true).2 = emptyDB := by decide

/-- Helper: a session row whose task description is shorter than 5
characters fails the `benchmark_sessions` CHECK constraints. -/
theorem sessionCheck_short_task (s : Session) (h : s.task_description.length < 5) :
    sessionCheck s = false := by
  have h5 : ¬ (5 ≤ s.task_description.length) := by omega
  simp [sessionCheck, h5]

/-- C6 amended: a session-creation request whose task description is
shorter than 5 characters never persists a session or record row and never
succeeds — an empty task fails the route's required-field check (HTTP 400),
and a nonempty too-short task passes the route's validation and is rejected
only by the store's `task_description_length` CHECK constraint on the
session insert, surfaced as HTTP 500 `Internal server error` rather than a
validation error; a task of exactly 5 characters is accepted. -/
theorem C6_amended_short_task_rejected_by_store :
    (∀ (db : DB) (req : CreateRequest) (now nonce : Nat) (backendOk : Bool),
        req.taskDescription.length < 5 →
          (createSessionFlow db req now nonce backendOk).2 = db ∧
          isSuccessOutcome (createSessionFlow db req now nonce backendOk).1 = false) ∧
    (createSessionFlow emptyDB reqFiveCharTask 5 7 true).1 =
      PostOutcome.ok (mkExternalId 5 7) := by
  constructor
  · intro db req now nonce backendOk hlen
    by_cases hm : req.websiteUrl.isEmpty || req.taskDescription.isEmpty || req.userId.isEmpty
    · simp [createSessionFlow, hm, isSuccessOutcome]
    · by_cases hv : validateUrl (normalizeUrl req.websiteUrl)
      · have hnone :
            createBenchmarkSession db
              (sessionRowFor (mkExternalId now nonce) req (normalizeUrl req.websiteUrl) now) =
              none := by
          have hc : sessionCheck
              { sessionRowFor (mkExternalId now nonce) req (normalizeUrl req.websiteUrl) now
                with id := freshUuid db.nextId } = false :=
            sessionCheck_short_task _ hlen
          simp [createBenchmarkSession, hc]
        simp [createSessionFlow, hm, hv, hnone, isSuccessOutcome]
      · simp [createSessionFlow, hm, hv, isSuccessOutcome]
  · decide

/-- Witness for the amended C6 at the concrete 4-character task. -/
theorem C6_amended_witness :
    (createSessionFlow emptyDB reqShortTask 5 7 true).2 = emptyDB ∧
    isSuccessOutcome (createSessionFlow emptyDB reqShortTask 5 7 true).1 = false :=
  C6_amended_short_task_rejected_by_store.1 emptyDB reqShortTask 5 7 true (by decide)

/-- C7 counterexample: after a successful creation the store holds exactly
one session, whose external identifier is `session_5_7` — yet the
get-session route called with that external identifier answers 404: the
lookup matches the path parameter against the internal store id
(`benchmark_sessions.id`), not the external `session_id` column. -/
theorem C7_counterexample :
    (dbAfterCreate.sessions.map Session.session_id) = ["session_5_7"] ∧
    getSessionRoute dbAfterCreate "session_5_7" = GetOutcome.notFound := by decide

/-- C7 amended: the get-session route resolves its path parameter against
the session's internal store id (`benchmark_sessions.id` — the identifier
the UI passes), not the external identifier. If a session whose internal id
equals the parameter exists, the call returns that session's summary — its
attributes, the projected public fields of its records, and
`execution_time_ms` equal to the sum of the records' durations; otherwise
it answers 404. -/
theorem C7_amended_lookup_is_by_internal_id (db : DB) (p : String) :
    (getSessionRoute db p = GetOutcome.notFound ↔
      db.sessions.find? (fun s => s.id == p) = none) ∧
    (∀ s, db.sessions.find? (fun s => s.id == p) = some s →
      getSessionRoute db p = GetOutcome.found
        { id := s.id
          session_id := s.session_id
          user_id := s.user_id
          website_url := s.website_url
          task_description := s.task_description
          status := s.status
          total_models := s.total_models
          completed_models := s.completed_models
          successful_models := s.successful_models
          execution_time_ms := ((db.benchmarks.filter (fun b => b.session_id == p)).map
            Benchmark.execution_time_ms).sum
          model_results :=
            (db.benchmarks.filter (fun b => b.session_id == p)).map toModelResult
          updated_at := s.updated_at }) := by
  constructor
  · unfold getSessionRoute getSessionSummary
    cases h : db.sessions.find? (fun s => s.id == p) with
    | none => simp [h]
    | some s => simp [h]
  · intro s hs
    unfold getSessionRoute getSessionSummary
    rw [hs]
    dsimp only
    congr 1
    simp only [List.map_map]
    rfl

/-- Witness for the amended C7: a parameter matching no internal id yields
404 on the concrete post-creation store. -/
theorem C7_amended_witness :
    getSessionRoute dbAfterCreate "no-such-id" = GetOutcome.notFound :=
  (C7_amended_lookup_is_by_internal_id dbAfterCreate "no-such-id").1.mpr (by decide)

/-! ## Reachability and the session-counter invariant (C4) -/

/-- The counter inequalities of spec §8.1 for one session row. -/
def sessionCountersValid (s : Session) : Prop :=
  0 ≤ s.successful_models ∧ s.successful_models ≤ s.completed_models ∧
  s.completed_models ≤ s.total_models

/-- All session rows of the store satisfy the counter inequalities. -/
def sessionsValid (db : DB) : Prop :=
  ∀ s ∈ db.sessions, sessionCountersValid s

/-- A row passing the `benchmark_sessions` CHECK constraints satisfies the
counter inequalities. -/
theorem sessionCheck_implies_countersValid (s : Session)
    (h : sessionCheck s = true) : sessionCountersValid s := by
  simp only [sessionCheck, Bool.and_eq_true, decide_eq_true_eq] at h
  exact ⟨h.1.2, h.2, h.1.1.2⟩

theorem applyStatsTrigger_preserves_valid (db : DB) (sid : String) (now : Nat)
    (db' : DB) (h : applyStatsTrigger db sid now = some db')
    (hv : sessionsValid db) : sessionsValid db' := by
  unfold applyStatsTrigger at h
  dsimp only at h
  split at h
  · rename_i hguard
    cases h
    intro s' hs'
    rcases List.mem_map.mp hs' with ⟨s, hsmem, rfl⟩
    by_cases hid : (s.id == sid) = true
    · have hall := List.all_eq_true.mp hguard _
        (List.mem_map.mpr ⟨s, hsmem, rfl⟩)
      rw [if_pos hid] at hall ⊢
      have hid' : ((recomputeSession s db.benchmarks now).id == sid) = true := hid
      rw [hid'] at hall
      simp only [Bool.not_true, Bool.false_or] at hall
      exact sessionCheck_implies_countersValid _ hall
    · rw [if_neg hid]
      exact hv s hsmem
  · exact absurd h (by simp)

theorem createBenchmarkSession_preserves_valid (db : DB) (row : Session)
    (u : String) (db' : DB) (h : createBenchmarkSession db row = some (u, db'))
    (hv : sessionsValid db) : sessionsValid db' := by
  unfold createBenchmarkSession at h
  dsimp only at h
  split at h
  · rename_i hguard
    cases h
    intro s' hs'
    rcases List.mem_append.mp hs' with hold | hnew
    · exact hv s' hold
    · rw [List.mem_singleton.mp hnew]
      rw [Bool.and_eq_true] at hguard
      exact sessionCheck_implies_countersValid _ hguard.1
  · exact absurd h (by simp)

theorem createBenchmark_preserves_valid (db : DB) (row : Benchmark) (now : Nat)
    (u : String) (db' : DB) (h : createBenchmark db row now = some (u, db'))
    (hv : sessionsValid db) : sessionsValid db' := by
  unfold createBenchmark at h
  dsimp only at h
  split at h
  · rcases Option.map_eq_some'.mp h with ⟨dbT, hT, hpair⟩
    cases hpair
    exact applyStatsTrigger_preserves_valid _ _ _ _ hT hv
  · exact absurd h (by simp)

theorem updateBenchmarkStatusOp_preserves_valid (db : DB) (benchmarkId : String)
    (st : BenchmarkStatus) (u : BenchmarkUpdates) (now : Nat) (db' : DB)
    (h : updateBenchmarkStatusOp db benchmarkId st u now = some db')
    (hv : sessionsValid db) : sessionsValid db' := by
  unfold updateBenchmarkStatusOp at h
  split at h
  · cases h
    exact hv
  · dsimp only at h
    split at h
    · exact applyStatsTrigger_preserves_valid _ _ _ _ h hv
    · exact absurd h (by simp)

theorem deleteBenchmarkOp_preserves_valid (db : DB) (benchmarkId : String)
    (now : Nat) (db' : DB) (h : deleteBenchmarkOp db benchmarkId now = some db')
    (hv : sessionsValid db) : sessionsValid db' := by
  unfold deleteBenchmarkOp at h
  split at h
  · cases h
    exact hv
  · exact applyStatsTrigger_preserves_valid _ _ _ _ h hv

theorem updateSessionStatusOp_preserves_valid (db : DB) (sessionId : String)
    (st : SessionStatus) (u : SessionUpdates) (now : Nat) (db' : DB)
    (h : updateSessionStatusOp db sessionId st u now = some db')
    (hv : sessionsValid db) : sessionsValid db' := by
  unfold updateSessionStatusOp at h
  dsimp only at h
  split at h
  · rename_i hguard
    cases h
    intro s' hs'
    rcases List.mem_map.mp hs' with ⟨s, hsmem, rfl⟩
    by_cases hid : (s.id == sessionId) = true
    · have hall := List.all_eq_true.mp hguard _
        (List.mem_map.mpr ⟨s, hsmem, rfl⟩)
      rw [if_pos hid] at hall ⊢
      have hid' : ((applySessionUpdates s st u now).id == sessionId) = true := by
        have : (applySessionUpdates s st u now).id = s.id := by
          unfold applySessionUpdates
          split <;> rfl
        rw [this]
        exact hid
      rw [hid'] at hall
      simp only [Bool.not_true, Bool.false_or] at hall
      exact sessionCheck_implies_countersValid _ hall
    · rw [if_neg hid]
      exact hv s hsmem
  · exact absurd h (by simp)

theorem insertModels_preserves_valid (uuid sid : String) (req : CreateRequest)
    (nurl : String) (now : Nat) :
    ∀ (ms : List ModelSpec) (db : DB) (flag : Bool) (db' : DB),
      insertModels db uuid sid req nurl now ms = (flag, db') →
      sessionsValid db → sessionsValid db' := by
  intro ms
  induction ms with
  | nil =>
    intro db flag db' h hv
    cases h
    exact hv
  | cons m rest ih =>
    intro db flag db' h hv
    unfold insertModels at h
    cases hcb : createBenchmark db (benchmarkRowFor uuid sid req nurl m now) now with
    | none =>
      rw [hcb] at h
      cases h
      exact hv
    | some p =>
      rw [hcb] at h
      exact ih p.2 flag db' h
        (createBenchmark_preserves_valid _ _ _ _ _ hcb hv)

theorem createSessionFlow_preserves_valid (db : DB) (req : CreateRequest)
    (now nonce : Nat) (backendOk : Bool) (hv : sessionsValid db) :
    sessionsValid (createSessionFlow db req now nonce backendOk).2 := by
  unfold createSessionFlow
  dsimp only
  split
  · exact hv
  · split
    · exact hv
    · split
      · exact hv
      · rename_i sessionUuid db1 hcs
        have hv1 : sessionsValid db1 :=
          createBenchmarkSession_preserves_valid _ _ _ _ hcs hv
        split
        · rename_i dbp hins
          exact insertModels_preserves_valid _ _ _ _ _ _ _ _ _ hins hv1
        · rename_i db2 hins
          have hv2 : sessionsValid db2 :=
            insertModels_preserves_valid _ _ _ _ _ _ _ _ _ hins hv1
          split
          · exact hv2
          · split
            · rename_i db3 hupd
              exact updateBenchmarkStatusOp_preserves_valid _ _ _ _ _ _ hupd hv2
            · exact hv2

theorem sessionUpdateRoute_preserves_valid (db : DB) (sessionIdentifier : String)
    (st : SessionStatus) (u : SessionUpdates) (now : Nat) (hv : sessionsValid db) :
    sessionsValid (sessionUpdateRoute db sessionIdentifier st u now).2 := by
  unfold sessionUpdateRoute
  split
  · exact hv
  · split
    · exact hv
    · split
      · rename_i db' hupd
        exact updateSessionStatusOp_preserves_valid _ _ _ _ _ _ hupd hv
      · exact hv

/-- The store states reachable from the empty store through the embedded
operations: the four record/session store operations (each of which fires
the aggregation trigger where the schema declares it), the session-creation
route, and the session-status update route. -/
inductive Reachable : DB → Prop
  | init : Reachable emptyDB
  | createSession (db : DB) (row : Session) (u : String) (db' : DB) :
      Reachable db → createBenchmarkSession db row = some (u, db') → Reachable db'
  | createRecord (db : DB) (row : Benchmark) (now : Nat) (u : String) (db' : DB) :
      Reachable db → createBenchmark db row now = some (u, db') → Reachable db'
  | updateRecord (db : DB) (benchmarkId : String) (st : BenchmarkStatus)
      (u : BenchmarkUpdates) (now : Nat) (db' : DB) :
      Reachable db → updateBenchmarkStatusOp db benchmarkId st u now = some db' →
      Reachable db'
  | deleteRecord (db : DB) (benchmarkId : String) (now : Nat) (db' : DB) :
      Reachable db → deleteBenchmarkOp db benchmarkId now = some db' → Reachable db'
  | updateSession (db : DB) (sessionId : String) (st : SessionStatus)
      (u : SessionUpdates) (now : Nat) (db' : DB) :
      Reachable db → updateSessionStatusOp db sessionId st u now = some db' →
      Reachable db'
  | post (db : DB) (req : CreateRequest) (now nonce : Nat) (backendOk : Bool) :
      Reachable db → Reachable (createSessionFlow db req now nonce backendOk).2
  | sessionEndpoint (db : DB) (sessionIdentifier : String) (st : SessionStatus)
      (u : SessionUpdates) (now : Nat) :
      Reachable db → Reachable (sessionUpdateRoute db sessionIdentifier st u now).2

/-- C4: in every store state reachable through the embedded operations —
session creation, record mutations (each firing the aggregation recompute),
and the session-status update endpoint — every session row satisfies
`0 ≤ successful_models ≤ completed_models ≤ total_models`: the
`benchmark_sessions` CHECK constraints reject any write that would break
the inequalities, so they hold after every successful mutation. -/
theorem C4_session_counter_invariant (db : DB) (h : Reachable db) :
    ∀ s ∈ db.sessions,
      0 ≤ s.successful_models ∧ s.successful_models ≤ s.completed_models ∧
      s.completed_models ≤ s.total_models := by
  have hvalid : sessionsValid db := by
    induction h with
    | init => intro s hs; cases hs
    | createSession db row u db' _ heq ih =>
      exact createBenchmarkSession_preserves_valid db row u db' heq ih
    | createRecord db row now u db' _ heq ih =>
      exact createBenchmark_preserves_valid db row now u db' heq ih
    | updateRecord db benchmarkId st u now db' _ heq ih =>
      exact updateBenchmarkStatusOp_preserves_valid db benchmarkId st u now db' heq ih
    | deleteRecord db benchmarkId now db' _ heq ih =>
      exact deleteBenchmarkOp_preserves_valid db benchmarkId now db' heq ih
    | updateSession db sessionId st u now db' _ heq ih =>
      exact updateSessionStatusOp_preserves_valid db sessionId st u now db' heq ih
    | post db req now nonce backendOk _ ih =>
      exact createSessionFlow_preserves_valid db req now nonce backendOk ih
    | sessionEndpoint db sessionIdentifier st u now _ ih =>
      exact sessionUpdateRoute_preserves_valid db sessionIdentifier st u now ih
  exact hvalid

/-- The session row held by `dbAfterCreate`. -/
def sessionAfterCreate : Session :=
  { id := "uuid-0"
    session_id := "session_5_7"
    user_id := "user-1"
    website_url := "https://example.com"
    task_description := "Find contact page"
    status := SessionStatus.running
    total_models := 8
    completed_models := 0
    successful_models := 0
    start_time := some 5
    end_time := none
    updated_at := 5 }

/-- Witness for C4 at the concrete reachable state `dbAfterCreate` and its
session row. -/
theorem C4_session_counter_invariant_witness :
    0 ≤ sessionAfterCreate.successful_models ∧
    sessionAfterCreate.successful_models ≤ sessionAfterCreate.completed_models ∧
    sessionAfterCreate.completed_models ≤ sessionAfterCreate.total_models :=
  C4_session_counter_invariant dbAfterCreate
    (Reachable.post emptyDB reqExample 5 7 true Reachable.init)
    sessionAfterCreate (by decide)

/-! ## The creation path's effect on the store (C5) -/

/-- The fields of a benchmark record that the creation claim speaks about
(everything except the store-assigned id, the request echo and the
timestamps). -/
structure RecordView where
  model_id : String
  model_name : String
  llm_provider : String
  status : BenchmarkStatus
  session_identifier : String
  session_id : String
  success : Bool
  execution_time_ms : Int
  deriving DecidableEq, Repr

def recordView (b : Benchmark) : RecordView :=
  { model_id := b.model_id
    model_name := b.model_name
    llm_provider := b.llm_provider
    status := b.status
    session_identifier := b.session_identifier
    session_id := b.session_id
    success := b.success
    execution_time_ms := b.execution_time_ms }

/-- The record the creation path is specified to produce for one configured
model: status `pending`, `success = false`, zero duration, the denormalized
external identifier and the model's provider tag. -/
def viewOfModel (sid uuid : String) (m : ModelSpec) : RecordView :=
  { model_id := m.id
    model_name := m.name
    llm_provider := m.provider
    status := BenchmarkStatus.pending
    session_identifier := sid
    session_id := uuid
    success := false
    execution_time_ms := 0 }

/-- Every session row carrying the given id is still the untouched
creation row: it passes the CHECK constraints, both counters are zero, the
status is `running`, `updated_at` is the creation instant and
`total_models` is nonzero. -/
def untouchedCreationSession (uuid : String) (now : Nat) (db : DB) : Prop :=
  ∀ s ∈ db.sessions, s.id = uuid →
    sessionCheck s = true ∧ s.completed_models = 0 ∧ s.successful_models = 0 ∧
    s.status = SessionStatus.running ∧ s.updated_at = now ∧ s.total_models ≠ 0

/-- Every benchmark record of the given session is still `pending`. -/
def pendingOnly (uuid : String) (db : DB) : Prop :=
  ∀ b ∈ db.benchmarks, b.session_id = uuid → b.status = BenchmarkStatus.pending

theorem map_id_of_fixed {α : Type} (f : α → α) :
    ∀ (l : List α), (∀ a ∈ l, f a = a) → l.map f = l := by
  intro l h
  induction l with
  | nil => rfl
  | cons x xs ih =>
    simp only [List.map_cons, h x (by simp)]
    rw [ih (fun a ha => h a (by simp [ha]))]

theorem countResolved_eq_zero (benchmarks : List Benchmark) (sid : String)
    (h : ∀ b ∈ benchmarks, b.session_id = sid → b.status = BenchmarkStatus.pending) :
    countResolved benchmarks sid = 0 := by
  unfold countResolved
  rw [List.length_eq_zero, List.filter_eq_nil_iff]
  intro b hb hpred
  rw [Bool.and_eq_true] at hpred
  have hsid : b.session_id = sid := by
    have := hpred.1
    exact eq_of_beq this
  have hpending := h b hb hsid
  rw [hpending] at hpred
  rcases Bool.or_eq_true_iff.mp hpred.2 with hx | hx <;> exact absurd hx (by decide)

theorem countSuccessful_eq_zero (benchmarks : List Benchmark) (sid : String)
    (h : ∀ b ∈ benchmarks, b.session_id = sid → b.status = BenchmarkStatus.pending) :
    countSuccessful benchmarks sid = 0 := by
  unfold countSuccessful
  rw [List.length_eq_zero, List.filter_eq_nil_iff]
  intro b hb hpred
  rw [Bool.and_eq_true] at hpred
  have hsid : b.session_id = sid := eq_of_beq hpred.1
  have hpending := h b hb hsid
  rw [hpending] at hpred
  have := hpred.2
  rw [Bool.and_eq_true] at this
  exact absurd this.1 (by decide)

/-- While every record of a session is still `pending` and the session row
is still the untouched creation row, the aggregation recompute leaves the
row unchanged. -/
theorem recomputeSession_pending_fixed (s : Session) (benchmarks : List Benchmark)
    (now : Nat)
    (hpend : ∀ b ∈ benchmarks, b.session_id = s.id → b.status = BenchmarkStatus.pending)
    (hc : s.completed_models = 0) (hsu : s.successful_models = 0)
    (hst : s.status = SessionStatus.running) (hu : s.updated_at = now)
    (htot : s.total_models ≠ 0) :
    recomputeSession s benchmarks now = s := by
  have h1 : countResolved benchmarks s.id = 0 := countResolved_eq_zero _ _ hpend
  have h2 : countSuccessful benchmarks s.id = 0 := countSuccessful_eq_zero _ _ hpend
  have hne : ¬ ((countResolved benchmarks s.id : Int) = s.total_models) := by
    rw [h1]
    intro hh
    exact htot (by exact_mod_cast hh.symm)
  unfold recomputeSession
  rw [if_neg hne, if_neg hne]
  cases s
  simp_all

/-- While every record of the session is `pending` and its row is the
untouched creation row, the trigger is the identity on the store. -/
theorem applyStatsTrigger_identity (db : DB) (uuid : String) (now : Nat)
    (hOld : untouchedCreationSession uuid now db)
    (hPend : pendingOnly uuid db) :
    applyStatsTrigger db uuid now = some db := by
  unfold applyStatsTrigger
  have hmap : db.sessions.map
      (fun s => if s.id == uuid then recomputeSession s db.benchmarks now else s) =
      db.sessions := by
    apply map_id_of_fixed
    intro s hs
    by_cases hid : (s.id == uuid) = true
    · rw [if_pos hid]
      have hid' : s.id = uuid := eq_of_beq hid
      obtain ⟨hchk, hc, hsu, hst, hu, htot⟩ := hOld s hs hid'
      exact recomputeSession_pending_fixed s db.benchmarks now
        (fun b hb hbs => hPend b hb (hid' ▸ hbs)) hc hsu hst hu htot
    · rw [if_neg hid]
  dsimp only
  rw [hmap]
  have hall : (db.sessions.all fun s => !(s.id == uuid) || sessionCheck s) = true := by
    rw [List.all_eq_true]
    intro s hs
    by_cases hid : (s.id == uuid) = true
    · have hid' : s.id = uuid := eq_of_beq hid
      obtain ⟨hchk, _⟩ := hOld s hs hid'
      rw [hchk]
      simp
    · rw [Bool.not_eq_true] at hid
      rw [hid]
      simp
  rw [if_pos hall]

/-- Effect of the creation path's record inserts: while the session row is
the untouched creation row and all its records are pending, inserting the
configured models' records appends one record per model (with the claimed
public fields) and leaves the session table unchanged. -/
theorem insertModels_effect (uuid sid : String) (req : CreateRequest)
    (nurl : String) (now : Nat) :
    ∀ (ms : List ModelSpec) (db : DB) (db' : DB),
      insertModels db uuid sid req nurl now ms = (true, db') →
      untouchedCreationSession uuid now db →
      pendingOnly uuid db →
      db'.sessions = db.sessions ∧
      db'.benchmarks.map recordView =
        db.benchmarks.map recordView ++ ms.map (viewOfModel sid uuid) := by
  intro ms
  induction ms with
  | nil =>
    intro db db' h _ _
    cases h
    simp
  | cons m rest ih =>
    intro db db' h hOld hPend
    unfold insertModels at h
    cases hcb : createBenchmark db (benchmarkRowFor uuid sid req nurl m now) now with
    | none =>
      rw [hcb] at h
      exact absurd h (by simp)
    | some p =>
      rw [hcb] at h
      obtain ⟨bid, db1⟩ := p
      unfold createBenchmark at hcb
      dsimp only at hcb
      split at hcb
      · rename_i hguard
        set b : Benchmark :=
          { benchmarkRowFor uuid sid req nurl m now with id := freshUuid db.nextId }
          with hb
        have hbpend : b.status = BenchmarkStatus.pending := rfl
        set dbIns : DB :=
          { db with benchmarks := db.benchmarks ++ [b], nextId := db.nextId + 1 }
          with hdbIns
        have hOldIns : untouchedCreationSession uuid now dbIns := hOld
        have hPendIns : pendingOnly uuid dbIns := by
          intro r hr hrs
          rcases List.mem_append.mp hr with hold | hnew
          · exact hPend r hold hrs
          · rw [List.mem_singleton.mp hnew]
            exact hbpend
        have htrig : applyStatsTrigger dbIns
            (benchmarkRowFor uuid sid req nurl m now).session_id now = some dbIns :=
          applyStatsTrigger_identity dbIns uuid now hOldIns hPendIns
        rw [htrig] at hcb
        rw [Option.map_some'] at hcb
        have hdb1 : dbIns = db1 := congrArg Prod.snd (Option.some.inj hcb)
        rw [← hdb1] at h
        obtain ⟨hsess, hbench⟩ := ih dbIns db' h hOldIns hPendIns
        constructor
        · exact hsess
        · rw [hbench]
          have hIns : dbIns.benchmarks = db.benchmarks ++ [b] := rfl
          rw [hIns]
          simp only [List.map_append, List.map_cons, List.map_nil, List.append_assoc]
          rfl
      · exact absurd hcb (by simp)

/-- C5: every successful session creation inserts exactly one session row —
status `running`, `total_models` equal to the number of configured models,
both counters zero — and exactly one `pending` benchmark record per
configured model (the configured model ids are pairwise distinct), each
carrying the session's denormalized external identifier and the model's
provider tag. -/
theorem C5_creation_inserts_one_session_and_one_record_per_model
    (db : DB) (req : CreateRequest) (now nonce : Nat) (sid : String) (db' : DB)
    (hfresh : ∀ b ∈ db.benchmarks, b.session_id ≠ freshUuid db.nextId)
    (hflow : createSessionFlow db req now nonce true = (PostOutcome.ok sid, db')) :
    db'.sessions = db.sessions ++
      [{ sessionRowFor sid req (normalizeUrl req.websiteUrl) now with
          id := freshUuid db.nextId }] ∧
    db'.benchmarks.map recordView =
      db.benchmarks.map recordView ++
        MODELS_TO_RUN.map (viewOfModel sid (freshUuid db.nextId)) ∧
    (MODELS_TO_RUN.map ModelSpec.id).Nodup ∧
    (sessionRowFor sid req (normalizeUrl req.websiteUrl) now).status =
      SessionStatus.running ∧
    (sessionRowFor sid req (normalizeUrl req.websiteUrl) now).total_models =
      (MODELS_TO_RUN.length : Int) ∧
    (sessionRowFor sid req (normalizeUrl req.websiteUrl) now).completed_models = 0 ∧
    (sessionRowFor sid req (normalizeUrl req.websiteUrl) now).successful_models = 0 := by
  unfold createSessionFlow at hflow
  dsimp only at hflow
  split at hflow
  · exact absurd hflow (by simp)
  · split at hflow
    · exact absurd hflow (by simp)
    · split at hflow
      · exact absurd hflow (by simp)
      · rename_i sessionUuid db1 hcs
        split at hflow
        · exact absurd hflow (by simp)
        · rename_i db2 hins
          rw [if_pos rfl] at hflow
          rw [Prod.mk.injEq] at hflow
          obtain ⟨hout, hdb⟩ := hflow
          injection hout with hsid
          subst hsid
          subst hdb
          unfold createBenchmarkSession at hcs
          dsimp only at hcs
          split at hcs
          · rename_i hguard
            rw [Bool.and_eq_true] at hguard
            obtain ⟨hchk, hall⟩ := hguard
            have hPair := Option.some.inj hcs
            have huuid : freshUuid db.nextId = sessionUuid := congrArg Prod.fst hPair
            have hdb1 := congrArg Prod.snd hPair
            subst huuid
            subst hdb1
            have hOld1 : untouchedCreationSession (freshUuid db.nextId) now
                { db with
                  sessions := db.sessions ++
                    [{ sessionRowFor (mkExternalId now nonce) req
                        (normalizeUrl req.websiteUrl) now with id := freshUuid db.nextId }]
                  nextId := db.nextId + 1 } := by
              intro t ht hid
              rcases List.mem_append.mp ht with hold | hnew
              · have hg := List.all_eq_true.mp hall t hold
                rw [Bool.and_eq_true] at hg
                have h1 := hg.1
                rw [Bool.not_eq_true'] at h1
                rw [hid] at h1
                simp at h1
              · rw [List.mem_singleton.mp hnew]
                exact ⟨hchk, rfl, rfl, rfl, rfl,
                  (show (MODELS_TO_RUN.length : Int) ≠ 0 by decide)⟩
            have hPend1 : pendingOnly (freshUuid db.nextId)
                { db with
                  sessions := db.sessions ++
                    [{ sessionRowFor (mkExternalId now nonce) req
                        (normalizeUrl req.websiteUrl) now with id := freshUuid db.nextId }]
                  nextId := db.nextId + 1 } := by
              intro b hb hbs
              exact absurd hbs (hfresh b hb)
            obtain ⟨hsess, hbench⟩ :=
              insertModels_effect (freshUuid db.nextId) (mkExternalId now nonce) req
                (normalizeUrl req.websiteUrl) now MODELS_TO_RUN _ db2 hins hOld1 hPend1
            exact ⟨hsess, hbench, by decide, rfl, rfl, rfl, rfl⟩
          · exact absurd hcs (by simp)

/-- Witness for C5 at the concrete creation from the empty store. -/
theorem C5_witness :
    dbAfterCreate.sessions = emptyDB.sessions ++
      [{ sessionRowFor "session_5_7" reqExample (normalizeUrl reqExample.websiteUrl) 5 with
          id := freshUuid emptyDB.nextId }] ∧
    dbAfterCreate.benchmarks.map recordView =
      emptyDB.benchmarks.map recordView ++
        MODELS_TO_RUN.map (viewOfModel "session_5_7" (freshUuid emptyDB.nextId)) ∧
    (MODELS_TO_RUN.map ModelSpec.id).Nodup ∧
    (sessionRowFor "session_5_7" reqExample (normalizeUrl reqExample.websiteUrl) 5).status =
      SessionStatus.running ∧
    (sessionRowFor "session_5_7" reqExample (normalizeUrl reqExample.websiteUrl) 5).total_models =
      (MODELS_TO_RUN.length : Int) ∧
    (sessionRowFor "session_5_7" reqExample
      (normalizeUrl reqExample.websiteUrl) 5).completed_models = 0 ∧
    (sessionRowFor "session_5_7" reqExample
      (normalizeUrl reqExample.websiteUrl) 5).successful_models = 0 :=
  C5_creation_inserts_one_session_and_one_record_per_model emptyDB reqExample 5 7
    "session_5_7" dbAfterCreate (by simp [emptyDB]) (by decide)

end WebAgent
